import Mathlib

/-!
Verification development for the module registry and loader core of the
repository (src/workerd/jsg/modules-new.c++).

The definitions below are a shallow embedding of that file.  Engine-side
objects (v8 isolates, module handles, promises) are modelled abstractly:
a module handle is a `Nat` allocated from a counter, a JavaScript value is
an opaque `Nat`, and engine decisions that depend on engine internals
(cached-data compatibility, promise settlement after a microtask drain,
success of a compile) enter the definitions as explicit parameters.
URL parsing and relative resolution are external collaborators of the
source file, so they are likewise passed in as function parameters; the
`Url` value type itself keeps its query and fragment as separate fields so
that the `IGNORE_SEARCH | IGNORE_FRAGMENTS` clone used by the code is
expressible.
-/

namespace Workerd

/-- Model of `jsg::Url`: an immutable specifier.  `base` is the scheme,
authority and (already percent-normalized) path; `search` and `fragment`
are kept separate because the code clones URLs with
`IGNORE_SEARCH | IGNORE_FRAGMENTS`. -/
structure Url where
  base : String
  search : String
  fragment : String
deriving DecidableEq, Repr

/-- Model of `Url::getHref()`. -/
def Url.getHref (u : Url) : String := u.base ++ u.search ++ u.fragment

/-- Model of `url.clone(Url::EquivalenceOption::IGNORE_FRAGMENTS |
Url::EquivalenceOption::IGNORE_SEARCH)` as used by
`IsolateModuleRegistry::resolveWithCaching`. -/
def Url.stripSearchAndFragment (u : Url) : Url :=
  { u with search := "", fragment := "" }

/-- `Module::Type` from modules-new.h (the four bundle/module trust tiers). -/
inductive ModuleType where
  | BUNDLE
  | BUILTIN
  | BUILTIN_ONLY
  | FALLBACK
deriving DecidableEq, Repr

/-- `ResolveContext::Type`: the resolution regime requested. -/
inductive ResolveType where
  | BUNDLE
  | BUILTIN
  | BUILTIN_ONLY
deriving DecidableEq, Repr

/-- `ResolveContext::Source`: how the resolution was initiated
(metrics-only in the source). -/
inductive ResolveSource where
  | STATIC_IMPORT
  | DYNAMIC_IMPORT
  | REQUIRE
  | INTERNAL
deriving DecidableEq, Repr

/-- `moduleTypeToResolveContextType` (modules-new.c++ lines 39-55). -/
def moduleTypeToResolveContextType : ModuleType → ResolveType
  | .BUNDLE => .BUNDLE
  | .BUILTIN => .BUILTIN
  | .BUILTIN_ONLY => .BUILTIN_ONLY
  | .FALLBACK => .BUNDLE

/-- The concrete shape of a `Module`: `EsModule` carries its source text,
`SyntheticModule` carries the declared export names. -/
inductive ModuleKind where
  | esModule (source : String)
  | synthetic (namedExports : List String)
deriving DecidableEq, Repr

/-- Model of the abstract `Module`: specifier, type tag and flag bits
(`ESM`, `MAIN`, `EVAL`), plus the concrete shape. -/
structure Module where
  specifier : Url
  type : ModuleType
  esm : Bool
  main : Bool
  evalFlag : Bool
  kind : ModuleKind
deriving DecidableEq, Repr

/-- `EsModule`'s constructor: its flags are always extended with
`Flags::ESM | Flags::EVAL` (modules-new.c++ line 71). -/
def Module.newEsm (specifier : Url) (type : ModuleType) (main : Bool)
    (source : String) : Module :=
  { specifier := specifier, type := type, esm := true, main := main,
    evalFlag := true, kind := .esModule source }

/-- `SyntheticModule`'s constructor: synthetic modules are never `ESM` and
never `MAIN` (modules-new.c++ lines 209-219). -/
def Module.newSynthetic (specifier : Url) (type : ModuleType)
    (evalFlag : Bool) (namedExports : List String) : Module :=
  { specifier := specifier, type := type, esm := false, main := false,
    evalFlag := evalFlag, kind := .synthetic namedExports }

/-- `ResolveContext` (modules-new.h): the per-resolution request record. -/
structure ResolveContext where
  type : ResolveType
  source : ResolveSource
  specifier : Url
  referrer : Url
  rawSpecifier : Option String
  attributes : List (String × String)
deriving DecidableEq, Repr

/-- `Module::evaluateContext` (modules-new.c++ lines 1362-1366): the late
check that the module is willing to serve this context; accepts iff the
context's specifier equals the module's own specifier. -/
def Module.evaluateContext (m : Module) (ctx : ResolveContext) : Bool :=
  if ctx.specifier ≠ m.specifier then false else true

/-- `checkModule` (modules-new.c++ lines 21-26): returns `none` if the
module is incapable of resolving the given context, else the module. -/
def checkModule (ctx : ResolveContext) (m : Module) : Option Module :=
  if ¬ m.evaluateContext ctx then none else some m

/-- `ModuleBundle::Resolved` (modules-new.h): the sum-shaped result of a
bundle resolution.  Both fields are optional in the source struct; the
registry's per-tier loop assumes exactly one of them is populated. -/
structure Resolved where
  module : Option Module
  specifier : Option String
deriving DecidableEq, Repr

/-- An opaque engine (JavaScript) value: exceptions, namespace objects and
promise results are tracked by identity only. -/
abbrev JsValue := Nat

/-- An error produced at the host/engine boundary: either an engine value
rethrown verbatim, a fresh `Error` with a message (`JSG_FAIL_REQUIRE(Error,
...)` / `js.error`), a fresh `TypeError` with a message (`js.typeError`),
or a pending engine exception propagated by `check`. -/
inductive JsError where
  | jsValue (v : JsValue)
  | errorMsg (msg : String)
  | typeErrorMsg (msg : String)
  | pendingException
deriving DecidableEq, Repr

/-! ### EsModule compile-cache read path (`EsModule::getDescriptor`) -/

/-- `v8::ScriptCompiler::CompileOptions` as used by the source: either no
options or `kConsumeCodeCache`. -/
inductive CompileOptions where
  | kNoCompileOptions
  | kConsumeCodeCache
deriving DecidableEq, Repr

/-- The state of the `v8::ScriptCompiler::CachedData*` view that
`EsModule::getDescriptor` builds on its read path: `null` (no cached
data, so `data` stays `nullptr`), `live` (compatibility check passed), or
`dangling` — the failed compatibility check ran `delete data;` without
nulling the pointer (modules-new.c++ line 114), so the pointer is
non-null but points at a freed object. -/
inductive CachedDataView where
  | null
  | live
  | dangling
deriving DecidableEq, Repr

/-- Everything observable about the cache-consultation part of one
`EsModule::getDescriptor` run (modules-new.c++ lines 94-146), including
which pointer state is handed to the `v8::ScriptCompiler::Source` at
line 122. -/
structure CacheReadOutcome where
  options : CompileOptions
  foundNotified : Bool
  rejectedNotified : Bool
  dataPassedToSource : CachedDataView
deriving DecidableEq, Repr

/-- The cache-consultation logic of `EsModule::getDescriptor`
(modules-new.c++ lines 94-146), step by step:

* `hasCached`: the module's `cachedData` slot holds a buffer;
* `compatible`: result of `CachedData::CompatibilityCheck` against the
  current isolate;
* `rejectedBySource`: the value of `maybeCached->rejected` (line 126)
  when the handed-over view is live;
* `danglingRejectedRead`: the value that same read yields when the view
  is dangling — the read touches a freed object, so the result is
  whatever the freed memory happens to hold (on the memory-unchanged
  reading it is `false`, the value the constructor left there).

The source builds the `CachedData` view and, when the compatibility check
fails, runs `delete data;` (line 114) *without* nulling `data`, then
still passes `data` into the `Source` constructor (line 122).
`source.GetCachedData()` (line 124) therefore returns a non-null pointer
whenever `hasCached`, and the `maybeCached->rejected` read at line 126
decides the compile options even on the freed view.
`observer.onCompileCacheFound` fires exactly when the compatibility check
succeeds; `observer.onCompileCacheRejected` fires exactly when the
`rejected` read yields true. -/
def esmCacheRead (hasCached compatible rejectedBySource
    danglingRejectedRead : Bool) : CacheReadOutcome :=
  -- auto options = kNoCompileOptions; CachedData* data = nullptr;
  -- KJ_IF_SOME(c, *lock) { data = new CachedData(...);
  --   if (check != kSuccess) { delete data; } else { onCompileCacheFound } }
  let data : CachedDataView :=
    if hasCached then
      if compatible then .live else .dangling
    else .null
  let foundNotified : Bool := hasCached && compatible
  -- Source source(..., data); auto maybeCached = source.GetCachedData();
  -- maybeCached is the pointer passed in: non-null also when dangling.
  match data with
  | .null =>
    { options := .kNoCompileOptions, foundNotified := foundNotified,
      rejectedNotified := false, dataPassedToSource := .null }
  | .live =>
    if rejectedBySource then
      { options := .kNoCompileOptions, foundNotified := foundNotified,
        rejectedNotified := true, dataPassedToSource := .live }
    else
      { options := .kConsumeCodeCache, foundNotified := foundNotified,
        rejectedNotified := false, dataPassedToSource := .live }
  | .dangling =>
    -- line 126 reads maybeCached->rejected from the freed object
    if danglingRejectedRead then
      { options := .kNoCompileOptions, foundNotified := foundNotified,
        rejectedNotified := true, dataPassedToSource := .dangling }
    else
      { options := .kConsumeCodeCache, foundNotified := foundNotified,
        rejectedNotified := false, dataPassedToSource := .dangling }

/-! ### Synchronous require: the `evaluate` lambda inside
`IsolateModuleRegistry::require` (modules-new.c++ lines 396-461) -/

/-- `v8::Module::Status` values. -/
inductive ModuleStatus where
  | kUninstantiated
  | kInstantiating
  | kInstantiated
  | kEvaluating
  | kEvaluated
  | kErrored
deriving DecidableEq, Repr

/-- `v8::Promise` settlement states. -/
inductive PromiseState where
  | kPending
  | kFulfilled
  | kRejected
deriving DecidableEq, Repr

/-- The engine-side view of one `v8::Module` handle: its status, the
stored exception (meaningful when the status is `kErrored`) and its
namespace object. -/
structure EngineModule where
  status : ModuleStatus
  exception : JsValue
  namespaceObj : JsValue
deriving DecidableEq, Repr

/-- Engine behaviour of one `Module::evaluate` invocation as observed by
`require`: whether `evaluate` produced a promise at all (an empty result
means an exception is already scheduled, which `check` rethrows), and the
promise's state and result after the single microtask drain that `require`
performs. -/
structure EvalRun where
  succeeds : Bool
  stateAfterOneDrain : PromiseState
  resultValue : JsValue
deriving DecidableEq, Repr

/-- What one run of the `evaluate` lambda inside `require` did: its result
(namespace object or error), how many times it drained the microtask
queue, and whether it invoked `Module::evaluate` at all. -/
structure RequireEvalOutcome where
  result : Except JsError JsValue
  microtaskDrains : Nat
  evaluateCalled : Bool
deriving Repr

/-- The exact text of `kTopLevelAwaitError`
(modules-new.c++ lines 436-439). -/
def kTopLevelAwaitError : String :=
  "Use of top-level await in a synchronously required module is restricted to promises that are resolved synchronously. This includes any top-level awaits in the entrypoint module for a worker."

/-- The `evaluate` lambda inside `IsolateModuleRegistry::require`
(modules-new.c++ lines 396-461), for an entry whose module is `mod` with
engine-side state `eng`, requested under the (pre-normalization) specifier
`specifier`:

1. status `kErrored`: rethrow the stored exception;
2. ESM and status `kEvaluating`: fail with the circular-dependency error;
3. status `kEvaluated` or `kEvaluating`: return the namespace object as-is;
4. otherwise evaluate to obtain a promise (`check` rethrows a scheduled
   exception when `evaluate` returned empty), run the microtask queue
   once, and branch on the promise state. -/
def requireEvaluate (mod : Module) (eng : EngineModule) (specifier : Url)
    (run : EvalRun) : RequireEvalOutcome :=
  if eng.status = .kErrored then
    { result := .error (.jsValue eng.exception), microtaskDrains := 0,
      evaluateCalled := false }
  else if mod.esm = true ∧ eng.status = .kEvaluating then
    { result := .error (.errorMsg
        ("Circular dependency when resolving module: " ++ specifier.getHref)),
      microtaskDrains := 0, evaluateCalled := false }
  else if eng.status = .kEvaluated ∨ eng.status = .kEvaluating then
    { result := .ok eng.namespaceObj, microtaskDrains := 0,
      evaluateCalled := false }
  else if run.succeeds = false then
    { result := .error .pendingException, microtaskDrains := 0,
      evaluateCalled := true }
  else
    match run.stateAfterOneDrain with
    | .kFulfilled =>
      { result := .ok eng.namespaceObj, microtaskDrains := 1,
        evaluateCalled := true }
    | .kRejected =>
      { result := .error (.jsValue run.resultValue), microtaskDrains := 1,
        evaluateCalled := true }
    | .kPending =>
      { result := .error (.errorMsg
          (kTopLevelAwaitError ++ " Specifier: \"" ++ specifier.getHref ++ "\".")),
        microtaskDrains := 1, evaluateCalled := true }

/-! ### IsolateModuleRegistry lookup cache and the engine callbacks -/

/-- `IsolateModuleRegistry::Entry`: an engine module handle (modelled as a
`Nat` allocated from a counter), the pre-normalization
`(ResolveContext.Type, Url)` specifier key, and the resolved `Module`. -/
structure Entry where
  key : Nat
  ctxType : ResolveType
  specifier : Url
  module : Module
deriving DecidableEq, Repr

/-- The `EntryCallbacks` hash index: look an entry up by its engine module
handle. -/
def findByHandle (es : List Entry) (h : Nat) : Option Entry :=
  es.find? (fun e => decide (e.key = h))

/-- The `ContextCallbacks` hash index: look an entry up by
`(ResolveContext.Type, Url)`. -/
def findByCtx (es : List Entry) (t : ResolveType) (u : Url) : Option Entry :=
  es.find? (fun e => decide (e.ctxType = t ∧ e.specifier = u))

/-- The `UrlCallbacks` hash index: look an entry up by its URL alone (used
by dynamic import to find the referring module). -/
def findByUrl (es : List Entry) (u : Url) : Option Entry :=
  es.find? (fun e => decide (e.specifier = u))

/-- Outcome of the `dynamicImport` host callback up to (and represented
by) the `dynamicResolve` call it makes: either a promise rejected with a
`TypeError`, or a call of `IsolateModuleRegistry::dynamicResolve` with the
given normalized specifier, referrer and raw specifier. -/
inductive DynImportOutcome where
  | rejectedTypeError (msg : String)
  | callDynResolve (specifier : Url) (referrer : Url) (rawSpecifier : String)
deriving DecidableEq, Repr

/-- The `dynamicImport` engine callback (modules-new.c++ lines 666-752),
from the import-attribute check through the choice of arguments for
`registry.dynamicResolve`:

* non-empty import attributes are rejected with a `TypeError`;
* the referrer URL is the parsed resource name, or the registry's bundle
  base when the resource name is empty (resource-name parsing is an
  external URL operation, so the caller passes the already-parsed result);
* under Node compat, `checkNodeSpecifier` may rewrite a bare specifier;
* a specifier equal to `"node:process"` is rewritten to
  `"node-internal:public_process"` or `"node-internal:legacy_process"`
  according to the process-v2 flag.  The source also constructs a
  `ResolveContext` with `type = BUILTIN_ONLY` at this point
  (lines 724-730) but never passes it anywhere: `dynamicResolve` receives
  only the specifier, referrer and raw specifier, so that context is dead;
* an unresolvable specifier yields a rejected `TypeError` promise.

`tryResolve` and `normalizePath` stand for the external URL operations
`Url::tryResolve` and `clone(NORMALIZE_PATH)`. -/
def dynamicImport (nodeCompatEnabled processV2Enabled : Bool)
    (checkNodeSpecifier : String → Option String)
    (tryResolve : Url → String → Option Url)
    (normalizePath : Url → Url)
    (bundleBase : Url) (resourceName : Option Url)
    (spec0 : String) (attrs : List (String × String)) : DynImportOutcome :=
  if attrs.length > 0 then
    .rejectedTypeError "Import attributes are not supported"
  else
    let referrer : Url :=
      match resourceName with
      | none => bundleBase
      | some u => u
    let spec : String :=
      if nodeCompatEnabled then
        match checkNodeSpecifier spec0 with
        | some nodeSpec => nodeSpec
        | none => spec0
      else spec0
    if spec = "node:process" then
      let processSpec : String :=
        if processV2Enabled then "node-internal:public_process"
        else "node-internal:legacy_process"
      match tryResolve referrer processSpec with
      | some url => .callDynResolve (normalizePath url) referrer processSpec
      | none =>
        -- KJ_IF_SOME fell through: control reaches the generic branch.
        match tryResolve referrer spec with
        | some url => .callDynResolve (normalizePath url) referrer spec
        | none => .rejectedTypeError ("Invalid module specifier: " ++ spec)
    else
      match tryResolve referrer spec with
      | some url => .callDynResolve (normalizePath url) referrer spec
      | none => .rejectedTypeError ("Invalid module specifier: " ++ spec)

/-- The `ResolveContext` that `IsolateModuleRegistry::dynamicResolve`
(modules-new.c++ lines 336-381) builds for the resolution: the referrer
must already be in the lookup cache (else a `TypeError` rejection), and
the context's `type` is derived from the referring module's type. -/
def dynamicResolveContext (entries : List Entry)
    (specifier referrer : Url) (rawSpecifier : String) :
    Except JsError ResolveContext :=
  match findByUrl entries referrer with
  | none => .error (.typeErrorMsg
      ("Referring module not found in the registry: " ++ referrer.getHref))
  | some referring => .ok
      { type := moduleTypeToResolveContextType referring.module.type,
        source := .DYNAMIC_IMPORT,
        specifier := specifier,
        referrer := referrer,
        rawSpecifier := some rawSpecifier,
        attributes := [] }

/-- Outcome of the static `resolveCallback` up to the
`registry.resolve(js, resolveContext)` call: either an exception thrown on
the isolate, or the `ResolveContext` handed to the registry. -/
inductive StaticResolveOutcome where
  | threw (e : JsError)
  | resolveWith (ctx : ResolveContext)
deriving DecidableEq, Repr

/-- The referrer URL chosen by the static `resolveCallback`: the
referring entry's pre-normalization specifier URL when the referrer is in
the lookup cache, else the registry's bundle base (modules-new.c++ lines
790-796). -/
def referrerUrlOf (entries : List Entry) (referrerHandle : Nat)
    (bundleBase : Url) : Url :=
  match findByHandle entries referrerHandle with
  | some entry => entry.specifier
  | none => bundleBase

/-- The context type chosen by the static `resolveCallback`: the
referring module's type when the referrer is in the lookup cache, else
`BUNDLE` (modules-new.c++ lines 790-796). -/
def referrerTypeOf (entries : List Entry) (referrerHandle : Nat) :
    ResolveType :=
  match findByHandle entries referrerHandle with
  | some entry => moduleTypeToResolveContextType entry.module.type
  | none => .BUNDLE

/-- The static `resolveCallback` engine callback (modules-new.c++ lines
768-847), from the import-attribute check through the choice of
`ResolveContext` for `registry.resolve`:

* non-empty import attributes throw a `TypeError`;
* the referrer entry is looked up by the referring engine module handle;
  when found it supplies the context type (from the referring module's
  type) and the referrer URL, otherwise the bundle base and `BUNDLE` are
  used;
* under Node compat, `checkNodeSpecifier` may rewrite a bare specifier;
* a specifier equal to `"node:process"` is rewritten to the process-v2 or
  legacy internal specifier and resolved with a `BUILTIN_ONLY` context;
* an unresolvable specifier throws a plain `Error` (`js.error`, line 838)
  whose message uses the original, pre-rewrite specifier string. -/
def resolveCallback (nodeCompatEnabled processV2Enabled : Bool)
    (checkNodeSpecifier : String → Option String)
    (tryResolve : Url → String → Option Url)
    (normalizePath : Url → Url)
    (bundleBase : Url) (entries : List Entry) (referrerHandle : Nat)
    (spec0 : String) (attrs : List (String × String)) :
    StaticResolveOutcome :=
  if attrs.length > 0 then
    .threw (.typeErrorMsg "Import attributes are not supported")
  else
    let ctxType : ResolveType := referrerTypeOf entries referrerHandle
    let referrerUrl : Url := referrerUrlOf entries referrerHandle bundleBase
    let spec : String :=
      if nodeCompatEnabled then
        match checkNodeSpecifier spec0 with
        | some nodeSpec => nodeSpec
        | none => spec0
      else spec0
    if spec = "node:process" then
      let processSpec : String :=
        if processV2Enabled then "node-internal:public_process"
        else "node-internal:legacy_process"
      match tryResolve referrerUrl processSpec with
      | some url => .resolveWith
          { type := .BUILTIN_ONLY,
            source := .STATIC_IMPORT,
            specifier := normalizePath url,
            referrer := referrerUrl,
            rawSpecifier := some processSpec,
            attributes := [] }
      | none =>
        -- KJ_IF_SOME fell through: control reaches the generic branch.
        match tryResolve referrerUrl spec with
        | some url => .resolveWith
            { type := ctxType,
              source := .STATIC_IMPORT,
              specifier := normalizePath url,
              referrer := referrerUrl,
              rawSpecifier := some spec,
              attributes := [] }
        | none => .threw (.errorMsg ("Invalid module specifier: " ++ spec0))
    else
      match tryResolve referrerUrl spec with
      | some url => .resolveWith
          { type := ctxType,
            source := .STATIC_IMPORT,
            specifier := normalizePath url,
            referrer := referrerUrl,
            rawSpecifier := some spec,
            attributes := [] }
      | none => .threw (.errorMsg ("Invalid module specifier: " ++ spec0))

/-! ### Bundles: fallback and static -/

/-- Look a URL key up in an insertion-ordered association list
(`kj::HashMap<Url, V>::find`). -/
def lookupUrl {V : Type} (table : List (Url × V)) (k : Url) : Option V :=
  match table with
  | [] => none
  | (k0, v0) :: rest => if k0 = k then some v0 else lookupUrl rest k

/-- `kj::HashMap<Url, V>::upsert`: replace the value at the key if
present, otherwise append the new pair. -/
def upsertUrl {V : Type} (table : List (Url × V)) (k : Url) (v : V) :
    List (Url × V) :=
  match table with
  | [] => [(k, v)]
  | (k0, v0) :: rest =>
    if k0 = k then (k0, v) :: rest else (k0, v0) :: upsertUrl rest k v

/-- `FallbackModuleBundle`'s guarded cache (modules-new.c++ lines
900-908): owned modules in `storage` and non-owning alias pointers in
`aliases`. -/
structure FallbackCache where
  storage : List (Url × Module)
  aliases : List (Url × Module)
deriving DecidableEq, Repr

/-- Result of one `FallbackModuleBundle::resolve` call together with the
updated cache and whether the resolver callback was invoked. -/
structure FallbackOutcome where
  result : Option Resolved
  cache : FallbackCache
  callbackInvoked : Bool
deriving Repr

/-- `FallbackModuleBundle::resolve` (modules-new.c++ lines 857-898):

1. under shared access, a hit in `storage` or in `aliases` for the
   requested specifier is returned directly;
2. on a miss, under exclusive access, the single resolver callback runs;
   a string result is returned as a redirect; an owned module is stored in
   `storage` under the *requested* specifier (`context.specifier`), and
   when the module's own specifier differs from the requested one an alias
   entry keyed by the *module's own* specifier is installed. -/
def fallbackResolve (callback : ResolveContext → Option (String ⊕ Module))
    (cache : FallbackCache) (ctx : ResolveContext) : FallbackOutcome :=
  match lookupUrl cache.storage ctx.specifier with
  | some m =>
    { result := some { module := some m, specifier := none },
      cache := cache, callbackInvoked := false }
  | none =>
    match lookupUrl cache.aliases ctx.specifier with
    | some m =>
      { result := some { module := some m, specifier := none },
        cache := cache, callbackInvoked := false }
    | none =>
      match callback ctx with
      | none => { result := none, cache := cache, callbackInvoked := true }
      | some (.inl str) =>
        { result := some { module := none, specifier := some str },
          cache := cache, callbackInvoked := true }
      | some (.inr m) =>
        let storage1 := upsertUrl cache.storage ctx.specifier m
        let aliases1 :=
          if m.specifier ≠ ctx.specifier then
            upsertUrl cache.aliases m.specifier m
          else cache.aliases
        { result := some { module := some m, specifier := none },
          cache := { storage := storage1, aliases := aliases1 },
          callbackInvoked := true }

/-- The immutable part of a `StaticModuleBundle` (modules-new.c++ lines
913-971): the specifier-to-factory map and the alias map. -/
structure StaticBundleData where
  modules : List (Url × (ResolveContext → Option (String ⊕ Module)))
  aliases : List (Url × Url)

/-- `StaticModuleBundle::resolve` (modules-new.c++ lines 922-965), with
`fuel` bounding the alias recursion (the source recurses on aliases
without a bound; `none` marks fuel exhaustion, which corresponds to the
source overflowing the stack on an alias cycle).  The result pairs the
`Resolved` (or a miss) with the updated bundle-level module cache.
`checkModule` is applied to cached and to freshly created modules, so a
module whose own specifier differs from the requested one produces a
`Resolved` with *both* fields empty. -/
def staticResolve (data : StaticBundleData) :
    Nat → List (Url × Module) → ResolveContext →
    Option (Option Resolved × List (Url × Module))
  | 0, _, _ => none
  | Nat.succ fuel, cache, ctx =>
    match lookupUrl data.aliases ctx.specifier with
    | some aliased =>
      staticResolve data fuel cache
        { type := ctx.type, source := ctx.source, specifier := aliased,
          referrer := ctx.referrer, rawSpecifier := ctx.rawSpecifier,
          attributes := ctx.attributes }
    | none =>
      match lookupUrl cache ctx.specifier with
      | some cached =>
        some (some { module := checkModule ctx cached, specifier := none },
          cache)
      | none =>
        match lookupUrl data.modules ctx.specifier with
        | none => some (none, cache)
        | some factory =>
          match factory ctx with
          | none => some (none, cache)
          | some (.inl str) =>
            some (some { module := none, specifier := some str }, cache)
          | some (.inr m) =>
            some (some { module := checkModule ctx m, specifier := none },
              upsertUrl cache ctx.specifier m)

/-! ### ModuleRegistry multi-tier resolution -/

/-- A bundle as the registry sees it: its declared type and its `resolve`
behaviour (bundle-level caches are internal to the bundle, so a single
resolution pass is modelled as a function). -/
structure Bundle where
  type : ModuleType
  resolveFn : ResolveContext → Option Resolved

/-- A `ModuleRegistry`: four bundle lists indexed by type (`kBundle`,
`kBuiltin`, `kBuiltinOnly`, `kFallback`) plus an optional parent
registry. -/
inductive Registry where
  | mk : List Bundle → List Bundle → List Bundle → List Bundle →
      Option Registry → Registry

/-- The `bundles_[kBundle]` list. -/
def Registry.bundleList : Registry → List Bundle
  | .mk a _ _ _ _ => a

/-- The `bundles_[kBuiltin]` list. -/
def Registry.builtinList : Registry → List Bundle
  | .mk _ a _ _ _ => a

/-- The `bundles_[kBuiltinOnly]` list. -/
def Registry.builtinOnlyList : Registry → List Bundle
  | .mk _ _ a _ _ => a

/-- The `bundles_[kFallback]` list. -/
def Registry.fallbackList : Registry → List Bundle
  | .mk _ _ _ a _ => a

/-- The optional parent registry. -/
def Registry.parent : Registry → Option Registry
  | .mk _ _ _ _ p => p

/-- Result of `ModuleRegistry::resolve`: a module, a miss, the
`KJ_UNREACHABLE` abort reached when a bundle returns a `Resolved` with
both fields empty (modules-new.c++ line 1218), or fuel exhaustion of the
model (the source recurses without a bound on redirect chains). -/
inductive RResult where
  | found (m : Module)
  | notFound
  | crash
  | fuelOut
deriving DecidableEq, Repr

/-- The `tryFind` lambda inside `ModuleRegistry::resolve`
(modules-new.c++ lines 1189-1222): scan the bundles of one tier in
insertion order.  The first bundle that returns a `Resolved` decides the
tier's outcome: a redirect string restarts resolution from the top with
the redirect specifier (cloning the context's type, source, referrer, raw
specifier and attributes) when it parses, and makes the tier miss when it
does not parse or when the restarted resolution misses; a module is
returned; both fields empty is the `KJ_UNREACHABLE`.  `restart` is the
enclosing registry's top-level resolve. -/
def tryFindList (restart : ResolveContext → RResult)
    (tryParse : String → Option Url) (ctx : ResolveContext) :
    List Bundle → Option RResult
  | [] => none
  | b :: rest =>
    match b.resolveFn ctx with
    | none => tryFindList restart tryParse ctx rest
    | some r =>
      match r.specifier with
      | some str =>
        match tryParse str with
        | some u =>
          match restart
              { type := ctx.type, source := ctx.source, specifier := u,
                referrer := ctx.referrer, rawSpecifier := ctx.rawSpecifier,
                attributes := ctx.attributes } with
          | .found m => some (.found m)
          | .notFound => none
          | .crash => some .crash
          | .fuelOut => some .fuelOut
        | none => none
      | none =>
        match r.module with
        | some m => some (.found m)
        | none => some .crash

/-- `ModuleRegistry::resolve` (modules-new.c++ lines 1188-1287): the
tiers consulted depend on the context type (`BUNDLE` → Bundle, Builtin,
Fallback; `BUILTIN` → Builtin, BuiltinOnly; `BUILTIN_ONLY` → BuiltinOnly),
and the parent registry is consulted only when every tier misses.  `fuel`
bounds the redirect/parent recursion of the model. -/
def registryResolve (tryParse : String → Option Url) :
    Nat → Registry → ResolveContext → RResult
  | 0, _, _ => .fuelOut
  | Nat.succ fuel, reg, ctx =>
    let restart := fun c => registryResolve tryParse fuel reg c
    let viaParent : RResult :=
      match reg.parent with
      | some p => registryResolve tryParse fuel p ctx
      | none => .notFound
    match ctx.type with
    | .BUNDLE =>
      match tryFindList restart tryParse ctx reg.bundleList with
      | some r => r
      | none =>
        match tryFindList restart tryParse ctx reg.builtinList with
        | some r => r
        | none =>
          match tryFindList restart tryParse ctx reg.fallbackList with
          | some r => r
          | none => viaParent
    | .BUILTIN =>
      match tryFindList restart tryParse ctx reg.builtinList with
      | some r => r
      | none =>
        match tryFindList restart tryParse ctx reg.builtinOnlyList with
        | some r => r
        | none => viaParent
    | .BUILTIN_ONLY =>
      match tryFindList restart tryParse ctx reg.builtinOnlyList with
      | some r => r
      | none => viaParent

/-- The complete search order of bundles for a context type, with the
tiers concatenated (`ModuleRegistry::resolve`'s switch). -/
def searchOrder (t : ResolveType) (reg : Registry) : List Bundle :=
  match t with
  | .BUNDLE => reg.bundleList ++ reg.builtinList ++ reg.fallbackList
  | .BUILTIN => reg.builtinList ++ reg.builtinOnlyList
  | .BUILTIN_ONLY => reg.builtinOnlyList

/-- Membership of a bundle in the BuiltinOnly tier of a registry or of
any ancestor in its parent chain. -/
inductive InChainBuiltinOnly : Registry → Bundle → Prop where
  | here {reg : Registry} {b : Bundle} :
      b ∈ reg.builtinOnlyList → InChainBuiltinOnly reg b
  | up {reg p : Registry} {b : Bundle} :
      reg.parent = some p → InChainBuiltinOnly p b → InChainBuiltinOnly reg b

/-! ### IsolateModuleRegistry::resolve with caching -/

/-- Per-context mutable state of an `IsolateModuleRegistry`: the lookup
cache rows and a counter modelling the engine's allocation of fresh
`v8::Module` handles (each `getDescriptor` call compiles or constructs a
new engine module). -/
structure ImrState where
  entries : List Entry
  nextHandle : Nat
deriving Repr

/-- The conflict check performed by `kj::Table::upsert` over the three
hash indices: a new row collides with an existing one when they share the
engine handle or the URL (sharing the `(type, Url)` pair implies sharing
the URL, so the URL index subsumes the context index).  On a collision
the table keeps the existing row unchanged and `upsert` returns it. -/
def upsertConflict (es : List Entry) (e : Entry) : Option Entry :=
  es.find? (fun x => decide (x.key = e.key ∨ x.specifier = e.specifier))

/-- `IsolateModuleRegistry::resolve` together with `resolveWithCaching`
(modules-new.c++ lines 319-331 and 540-569):

1. a lookup-cache hit on `(context.type, context.specifier)` returns the
   cached engine handle;
2. on a miss, the inner `ModuleRegistry` is queried with a context whose
   specifier has its query parameters and fragment stripped
   (`IGNORE_FRAGMENTS | IGNORE_SEARCH`);
3. an inner miss throws `Error "Module not found: <href>"` (with the
   pre-normalization href);
4. otherwise `getDescriptor` produces an engine module (a fresh handle;
   failure — `descOk` false — rethrows the scheduled exception via
   `check`), and the new `Entry` is upserted keyed with the original
   context (query and fragment preserved); on an index collision the
   existing row is kept and returned.

`inner` abstracts the shared `ModuleRegistry` (whose bundle-level caches
make repeated resolution deterministic), `descOk` the success of
compilation. -/
def imrResolve (inner : ResolveContext → Option Module)
    (descOk : Module → Bool) (s : ImrState) (ctx : ResolveContext) :
    Except JsError Nat × ImrState :=
  match findByCtx s.entries ctx.type ctx.specifier with
  | some e => (.ok e.key, s)
  | none =>
    let innerCtx : ResolveContext :=
      { type := ctx.type, source := ctx.source,
        specifier := ctx.specifier.stripSearchAndFragment,
        referrer := ctx.referrer, rawSpecifier := none, attributes := [] }
    match inner innerCtx with
    | none =>
      (.error (.errorMsg ("Module not found: " ++ ctx.specifier.getHref)), s)
    | some m =>
      if descOk m then
        let e : Entry :=
          { key := s.nextHandle, ctxType := ctx.type,
            specifier := ctx.specifier, module := m }
        let s1 : ImrState :=
          { entries := s.entries, nextHandle := s.nextHandle + 1 }
        match upsertConflict s.entries e with
        | some existing => (.ok existing.key, s1)
        | none =>
          (.ok e.key, { entries := s.entries ++ [e],
                        nextHandle := s.nextHandle + 1 })
      else
        (.error .pendingException, s)

/-- Well-formedness of the lookup-cache state: every cached handle is
below the allocation counter (handles are engine-allocated and never
reused) and the URL index is a real index (no two rows share a URL). -/
def ImrWF (s : ImrState) : Prop :=
  (∀ e ∈ s.entries, e.key < s.nextHandle) ∧
    s.entries.Pairwise (fun a b => a.specifier ≠ b.specifier)

/-- Well-typedness of a registry's bundle lists: the builder indexes each
bundle under its own type (`bundles_[static_cast<int>(bundle->type())]`,
modules-new.c++ line 1157), so each list holds only bundles of the
matching type, recursively through the parent chain. -/
inductive RegistryTyped : Registry → Prop where
  | mk {bl bil bol fl : List Bundle} {par : Option Registry} :
      (∀ b ∈ bl, b.type = ModuleType.BUNDLE) →
      (∀ b ∈ bil, b.type = ModuleType.BUILTIN) →
      (∀ b ∈ bol, b.type = ModuleType.BUILTIN_ONLY) →
      (∀ b ∈ fl, b.type = ModuleType.FALLBACK) →
      (∀ p, par = some p → RegistryTyped p) →
      RegistryTyped (.mk bl bil bol fl par)

/-! ### Statement helpers and concrete fixtures -/

/-- A string mentions `sub` when `sub` occurs contiguously inside it. -/
def strMentions (s sub : String) : Prop :=
  ∃ a b : String, s = (a ++ sub) ++ b

/-- Whether a static-resolve outcome is a thrown `TypeError`. -/
def StaticResolveOutcome.isTypeErrorThrow : StaticResolveOutcome → Bool
  | .threw (.typeErrorMsg _) => true
  | _ => false

/-- A URL resolver that treats every specifier as absolute (enough for
`node-internal:` style specifiers in concrete runs). -/
def absUrlResolve : Url → String → Option Url :=
  fun _ s => some { base := s, search := "", fragment := "" }

/-- A URL resolver that fails on every input. -/
def noUrlResolve : Url → String → Option Url := fun _ _ => none

/-- A URL parser that treats every string as an already-absolute URL. -/
def simpleParse : String → Option Url :=
  fun s => some { base := s, search := "", fragment := "" }

def urlRoot : Url := { base := "file:///", search := "", fragment := "" }

def urlMainJs : Url := { base := "file:///main.js", search := "", fragment := "" }

/-- `file:///main.js?x=1`: the same resource with a query parameter. -/
def urlMainQueryJs : Url :=
  { base := "file:///main.js", search := "?x=1", fragment := "" }

def urlAJs : Url := { base := "file:///a.js", search := "", fragment := "" }

def urlBJs : Url := { base := "file:///b.js", search := "", fragment := "" }

def urlRequestedJs : Url :=
  { base := "file:///requested.js", search := "", fragment := "" }

def urlCanonicalJs : Url :=
  { base := "file:///canonical.js", search := "", fragment := "" }

def urlNodeInternalX : Url :=
  { base := "node-internal:x", search := "", fragment := "" }

/-- A user (BUNDLE-typed) ESM module at `file:///main.js`. -/
def mainModule : Module := Module.newEsm urlMainJs .BUNDLE true "export {};"

/-- A lookup cache holding the entry for `mainModule` under handle 1. -/
def entriesMain : List Entry :=
  [{ key := 1, ctxType := .BUNDLE, specifier := urlMainJs,
     module := mainModule }]

/-- A module whose own specifier is `file:///b.js`. -/
def moduleAtB : Module := Module.newEsm urlBJs .BUNDLE false "export {};"

/-- A static-bundle factory registered at `file:///a.js` that returns a
module whose own specifier is `file:///b.js`. -/
def mismatchStatic : StaticBundleData :=
  { modules := [(urlAJs, fun _ => some (.inr moduleAtB))], aliases := [] }

def ctxAJs : ResolveContext :=
  { type := .BUNDLE, source := .STATIC_IMPORT, specifier := urlAJs,
    referrer := urlRoot, rawSpecifier := none, attributes := [] }

/-- The mismatching static bundle wrapped for the registry (its cache
starts empty). -/
def mismatchBundle : Bundle :=
  { type := .BUNDLE,
    resolveFn := fun ctx =>
      match staticResolve mismatchStatic 8 [] ctx with
      | some (r, _) => r
      | none => none }

/-- A fallback-served module whose own specifier is
`file:///canonical.js`. -/
def canonicalModule : Module :=
  Module.newEsm urlCanonicalJs .FALLBACK false "export {};"

/-- A fallback resolver callback that always produces
`canonicalModule`. -/
def fallbackCb : ResolveContext → Option (String ⊕ Module) :=
  fun _ => some (.inr canonicalModule)

def ctxRequestedJs : ResolveContext :=
  { type := .BUNDLE, source := .STATIC_IMPORT, specifier := urlRequestedJs,
    referrer := urlRoot, rawSpecifier := none, attributes := [] }

/-- A BUILTIN_ONLY module at `node-internal:x`. -/
def internalModule : Module :=
  Module.newEsm urlNodeInternalX .BUILTIN_ONLY false "export {};"

/-- A BUILTIN_ONLY bundle serving exactly `node-internal:x`. -/
def internalBundle : Bundle :=
  { type := .BUILTIN_ONLY,
    resolveFn := fun ctx =>
      if ctx.specifier = urlNodeInternalX then
        some { module := some internalModule, specifier := none }
      else none }

def ctxInternal : ResolveContext :=
  { type := .BUILTIN_ONLY, source := .INTERNAL,
    specifier := urlNodeInternalX, referrer := urlRoot,
    rawSpecifier := none, attributes := [] }

/-- A registry whose only bundle is `internalBundle`, in the BuiltinOnly
tier. -/
def regInternal : Registry := .mk [] [] [internalBundle] [] none

/-- A bundle that never resolves anything. -/
def emptyBundle : Bundle := { type := .BUNDLE, resolveFn := fun _ => none }

/-- A bundle that directly serves `mainModule` for every context. -/
def directBundle : Bundle :=
  { type := .BUNDLE,
    resolveFn := fun _ => some { module := some mainModule, specifier := none } }

def ctxMainJs : ResolveContext :=
  { type := .BUNDLE, source := .STATIC_IMPORT, specifier := urlMainJs,
    referrer := urlRoot, rawSpecifier := none, attributes := [] }

/-- A registry with an inert first bundle and a serving second bundle in
the Bundle tier. -/
def regTwoBundles : Registry := .mk [emptyBundle, directBundle] [] [] [] none

/-- A registry with no bundles and no parent. -/
def regEmpty : Registry := .mk [] [] [] [] none

def ctxMainQueryJs : ResolveContext :=
  { type := .BUNDLE, source := .REQUIRE, specifier := urlMainQueryJs,
    referrer := urlRoot, rawSpecifier := some "./main.js?x=1",
    attributes := [] }

/-- An inner registry resolution that serves `mainModule` for the
query-stripped `file:///main.js` and misses otherwise. -/
def innerServesMain : ResolveContext → Option Module :=
  fun ctx => if ctx.specifier = urlMainJs then some mainModule else none

/-- The tail of `kTopLevelAwaitError` after its "top-level await"
mention. -/
def kTLARest : String :=
  " in a synchronously required module is restricted to promises that are resolved synchronously. This includes any top-level awaits in the entrypoint module for a worker."

/-! ### Shared helper lemmas -/

theorem strMentions_append_right {s sub : String} (t : String)
    (h : strMentions s sub) : strMentions (s ++ t) sub := by
  obtain ⟨a, b, hab⟩ := h
  exact ⟨a, b ++ t, by rw [hab, String.append_assoc]⟩

set_option maxRecDepth 4096 in
theorem kTLA_mentions_tla : strMentions kTopLevelAwaitError "top-level await" :=
  ⟨"Use of ", kTLARest, by decide⟩

theorem lookupUrl_upsertUrl_self {V : Type} (t : List (Url × V)) (k : Url)
    (v : V) : lookupUrl (upsertUrl t k v) k = some v := by
  induction t with
  | nil => simp [upsertUrl, lookupUrl]
  | cons p rest ih =>
    obtain ⟨k0, v0⟩ := p
    by_cases h : k0 = k
    · simp [upsertUrl, lookupUrl, h]
    · simp [upsertUrl, lookupUrl, h, ih]

/-! ### Claim C6 -/

/-- C6 is violated by the code: with cached data present but
incompatible with the current isolate, the `CachedData` view is freed by
`delete data;` (line 114) yet the dangling pointer is still passed into
the `Source` (line 122).  `GetCachedData()` then returns it non-null, the
`rejected` read at line 126 touches the freed object, and on the
memory-unchanged reading (`rejected` stays `false`, the value the
constructor left there) the compile runs with `kConsumeCodeCache` —
consuming cache the engine declared incompatible — with no observer
notification.  Whatever the freed read yields, the dangling view is
handed to the `Source`, never cleanly discarded.  For contrast, the
compatible paths behave as the claim describes. -/
theorem c6_incompatible_cache_freed_but_consumed :
    (esmCacheRead true false false false).dataPassedToSource =
      CachedDataView.dangling ∧
    (esmCacheRead true false false false).options =
      CompileOptions.kConsumeCodeCache ∧
    (esmCacheRead true false false false).rejectedNotified = false ∧
    (esmCacheRead true false false true).dataPassedToSource =
      CachedDataView.dangling ∧
    (esmCacheRead true true false false).options =
      CompileOptions.kConsumeCodeCache ∧
    (esmCacheRead true true true false).options =
      CompileOptions.kNoCompileOptions ∧
    (esmCacheRead true true true false).rejectedNotified = true ∧
    (esmCacheRead false false false false).dataPassedToSource =
      CachedDataView.null := by
  decide

/-! ### Claim C7 -/

/-- C7: for every static or dynamic import whose import-attribute list is
non-empty, regardless of the attributes' content and of every other
input, the static resolve callback throws the `TypeError`
"Import attributes are not supported" on the isolate and the dynamic
import-callback returns a promise rejected with the same `TypeError`. -/
theorem c7_import_attributes_rejected
    (nodeCompatEnabled processV2Enabled : Bool)
    (checkNodeSpecifier : String → Option String)
    (tryResolve : Url → String → Option Url) (normalizePath : Url → Url)
    (bundleBase : Url) (entries : List Entry) (resourceName : Option Url)
    (referrerHandle : Nat) (spec0 : String)
    (attrs : List (String × String)) (h : attrs ≠ []) :
    resolveCallback nodeCompatEnabled processV2Enabled checkNodeSpecifier
        tryResolve normalizePath bundleBase entries referrerHandle spec0 attrs
      = .threw (.typeErrorMsg "Import attributes are not supported") ∧
    dynamicImport nodeCompatEnabled processV2Enabled checkNodeSpecifier
        tryResolve normalizePath bundleBase resourceName spec0 attrs
      = .rejectedTypeError "Import attributes are not supported" := by
  have hl : attrs.length > 0 := List.length_pos.mpr h
  constructor
  · unfold resolveCallback
    rw [if_pos hl]
  · unfold dynamicImport
    rw [if_pos hl]

/-- Witness for `c7_import_attributes_rejected` at a concrete attribute
list. -/
theorem c7_import_attributes_rejected_witness :
    resolveCallback false false (fun _ => none) absUrlResolve id urlRoot []
        0 "./x.js" [("type", "json")]
      = .threw (.typeErrorMsg "Import attributes are not supported") ∧
    dynamicImport false false (fun _ => none) absUrlResolve id urlRoot none
        "./x.js" [("type", "json")]
      = .rejectedTypeError "Import attributes are not supported" :=
  c7_import_attributes_rejected false false (fun _ => none) absUrlResolve id
    urlRoot [] none 0 "./x.js" [("type", "json")] (by decide)

/-! ### Claim C8 -/

/-- C8 counterexample: at a concrete unparseable specifier the static
resolve callback throws a plain `Error` ("Invalid module specifier: ..."),
not a `TypeError` as the claim states. -/
theorem c8_invalid_specifier_counterexample :
    (resolveCallback false false (fun _ => none) noUrlResolve id urlRoot []
        0 "://bad" []).isTypeErrorThrow = false ∧
    resolveCallback false false (fun _ => none) noUrlResolve id urlRoot []
        0 "://bad" []
      = .threw (.errorMsg "Invalid module specifier: ://bad") := by
  decide

/-- C8 (amended): in the static resolve callback, for every specifier
string that cannot be parsed and resolved relative to the referrer URL
(the external resolver fails on every attempt against that referrer),
resolution fails with a plain `Error` — not a `TypeError` — whose message
is "Invalid module specifier: " followed by the original specifier
string. -/
theorem c8_invalid_specifier_plain_error
    (nodeCompatEnabled processV2Enabled : Bool)
    (checkNodeSpecifier : String → Option String)
    (tryResolve : Url → String → Option Url) (normalizePath : Url → Url)
    (bundleBase : Url) (entries : List Entry) (referrerHandle : Nat)
    (spec0 : String)
    (hfail : ∀ s,
      tryResolve (referrerUrlOf entries referrerHandle bundleBase) s = none) :
    resolveCallback nodeCompatEnabled processV2Enabled checkNodeSpecifier
        tryResolve normalizePath bundleBase entries referrerHandle spec0 []
      = .threw (.errorMsg ("Invalid module specifier: " ++ spec0)) := by
  unfold resolveCallback
  rw [if_neg (by simp)]
  simp only [hfail]
  split <;> exact ite_self _

/-- Witness for `c8_invalid_specifier_plain_error` with an always-failing
resolver (exercising the `node:process` fall-through as well). -/
theorem c8_invalid_specifier_plain_error_witness :
    resolveCallback false false (fun _ => none) noUrlResolve id urlRoot []
        0 "node:process" []
      = .threw (.errorMsg ("Invalid module specifier: " ++ "node:process")) :=
  c8_invalid_specifier_plain_error false false (fun _ => none) noUrlResolve
    id urlRoot [] 0 "node:process" (fun _ => rfl)

/-! ### Claim C5 -/

/-- C5 counterexample: at a concrete run where the fallback callback
returns a module whose own specifier `file:///canonical.js` differs from
the requested `file:///requested.js`, the owned-module cache holds the
module under the *requested* specifier (not the resolved one as the claim
states) and the alias cache holds the pointer under the *resolved*
specifier (not the requested one as the claim states). -/
theorem c5_fallback_keying_counterexample :
    lookupUrl (fallbackResolve fallbackCb { storage := [], aliases := [] }
        ctxRequestedJs).cache.storage urlCanonicalJs = none ∧
    lookupUrl (fallbackResolve fallbackCb { storage := [], aliases := [] }
        ctxRequestedJs).cache.aliases urlRequestedJs = none ∧
    (fallbackResolve fallbackCb { storage := [], aliases := [] }
        ctxRequestedJs).cache.storage = [(urlRequestedJs, canonicalModule)] ∧
    (fallbackResolve fallbackCb { storage := [], aliases := [] }
        ctxRequestedJs).cache.aliases = [(urlCanonicalJs, canonicalModule)] := by
  decide

/-- C5 (amended): when a FallbackModuleBundle's callback returns an owned
Module whose own specifier differs from the requested specifier, the
bundle caches the owned module keyed by the *originally requested*
specifier and an alias pointer keyed by the *module's own (resolved)*
specifier, so that a second resolve of the originally requested specifier
hits the owned-module cache and returns the same Module without invoking
the callback again. -/
theorem c5_fallback_alias_caching
    (cb : ResolveContext → Option (String ⊕ Module)) (cache : FallbackCache)
    (ctx : ResolveContext) (m : Module)
    (h1 : lookupUrl cache.storage ctx.specifier = none)
    (h2 : lookupUrl cache.aliases ctx.specifier = none)
    (h3 : cb ctx = some (.inr m)) (h4 : m.specifier ≠ ctx.specifier) :
    fallbackResolve cb cache ctx =
      { result := some { module := some m, specifier := none },
        cache := { storage := upsertUrl cache.storage ctx.specifier m,
                   aliases := upsertUrl cache.aliases m.specifier m },
        callbackInvoked := true } ∧
    lookupUrl (upsertUrl cache.storage ctx.specifier m) ctx.specifier = some m ∧
    lookupUrl (upsertUrl cache.aliases m.specifier m) m.specifier = some m ∧
    fallbackResolve cb
        { storage := upsertUrl cache.storage ctx.specifier m,
          aliases := upsertUrl cache.aliases m.specifier m } ctx =
      { result := some { module := some m, specifier := none },
        cache := { storage := upsertUrl cache.storage ctx.specifier m,
                   aliases := upsertUrl cache.aliases m.specifier m },
        callbackInvoked := false } := by
  refine ⟨?_, lookupUrl_upsertUrl_self _ _ _, lookupUrl_upsertUrl_self _ _ _, ?_⟩
  · unfold fallbackResolve
    rw [h1, h2, h3]
    simp only [if_pos h4]
  · unfold fallbackResolve
    rw [lookupUrl_upsertUrl_self]

/-- Witness for `c5_fallback_alias_caching` at the concrete
requested/canonical fixture. -/
theorem c5_fallback_alias_caching_witness :
    fallbackResolve fallbackCb { storage := [], aliases := [] } ctxRequestedJs =
      { result := some { module := some canonicalModule, specifier := none },
        cache := { storage := upsertUrl [] urlRequestedJs canonicalModule,
                   aliases := upsertUrl [] urlCanonicalJs canonicalModule },
        callbackInvoked := true } ∧
    fallbackResolve fallbackCb
        { storage := upsertUrl [] urlRequestedJs canonicalModule,
          aliases := upsertUrl [] urlCanonicalJs canonicalModule }
        ctxRequestedJs =
      { result := some { module := some canonicalModule, specifier := none },
        cache := { storage := upsertUrl [] urlRequestedJs canonicalModule,
                   aliases := upsertUrl [] urlCanonicalJs canonicalModule },
        callbackInvoked := false } := by
  have h := c5_fallback_alias_caching fallbackCb
    { storage := [], aliases := [] } ctxRequestedJs canonicalModule rfl rfl
    rfl (by decide)
  exact ⟨h.1, h.2.2.2⟩

/-! ### Claim C10 -/

/-- C10 is violated by the code: a static bundle whose factory for
`file:///a.js` returns a module whose own specifier is `file:///b.js`
makes `StaticModuleBundle::resolve` return a `Resolved` with *both*
fields empty (`checkModule` rejects the mismatched specifier), and
`ModuleRegistry::resolve` then reaches the `KJ_UNREACHABLE` branch of its
per-tier lookup — modelled as `.crash` — contradicting both the claim and
the code's own unreachability assertion. -/
theorem c10_both_empty_resolved_reaches_unreachable :
    staticResolve mismatchStatic 8 [] ctxAJs
      = some (some { module := none, specifier := none },
          [(urlAJs, moduleAtB)]) ∧
    registryResolve simpleParse 2 (.mk [mismatchBundle] [] [] [] none) ctxAJs
      = .crash := by
  decide

/-! ### Claim C1 -/

/-- C1 is violated by the code: for a dynamic import of "node:process"
the specifier *is* rewritten to `node-internal:public_process` (process
v2 enabled) or `node-internal:legacy_process` (disabled), but the
`ResolveContext` that `dynamicResolve` actually uses takes its type from
the *referring module* — here `BUNDLE`, not `BUILTIN_ONLY`.  (The
`BUILTIN_ONLY` context constructed inside `dynamicImport` is dead: it is
never passed to `dynamicResolve`.) -/
theorem c1_dynamic_process_type_divergence :
    dynamicImport false true (fun _ => none) absUrlResolve id urlRoot
        (some urlMainJs) "node:process" []
      = .callDynResolve
          { base := "node-internal:public_process", search := "", fragment := "" }
          urlMainJs "node-internal:public_process" ∧
    dynamicImport false false (fun _ => none) absUrlResolve id urlRoot
        (some urlMainJs) "node:process" []
      = .callDynResolve
          { base := "node-internal:legacy_process", search := "", fragment := "" }
          urlMainJs "node-internal:legacy_process" ∧
    (dynamicResolveContext entriesMain
        { base := "node-internal:public_process", search := "", fragment := "" }
        urlMainJs "node-internal:public_process").map ResolveContext.type
      = .ok ResolveType.BUNDLE ∧
    ResolveType.BUNDLE ≠ ResolveType.BUILTIN_ONLY := by
  refine ⟨rfl, rfl, rfl, by decide⟩

/-! ### Claim C2 -/

/-- C2: for every module whose engine status is neither errored,
evaluating nor evaluated, and whose evaluation yields a promise,
synchronous require invokes `evaluate` and drains the microtask queue
exactly once; then a fulfilled promise returns the module namespace
object, a rejected promise rethrows the promise's result, and a pending
promise fails with an `Error` whose message mentions top-level await and
contains the module's specifier URL. -/
theorem c2_require_fresh_evaluation (mod : Module) (eng : EngineModule)
    (specifier : Url) (run : EvalRun)
    (hne : eng.status ≠ ModuleStatus.kErrored)
    (hnv : eng.status ≠ ModuleStatus.kEvaluating)
    (hnd : eng.status ≠ ModuleStatus.kEvaluated)
    (hok : run.succeeds = true) :
    (requireEvaluate mod eng specifier run).evaluateCalled = true ∧
    (requireEvaluate mod eng specifier run).microtaskDrains = 1 ∧
    (run.stateAfterOneDrain = PromiseState.kFulfilled →
      (requireEvaluate mod eng specifier run).result = .ok eng.namespaceObj) ∧
    (run.stateAfterOneDrain = PromiseState.kRejected →
      (requireEvaluate mod eng specifier run).result =
        .error (.jsValue run.resultValue)) ∧
    (run.stateAfterOneDrain = PromiseState.kPending →
      (requireEvaluate mod eng specifier run).result =
        .error (.errorMsg
          (kTopLevelAwaitError ++ " Specifier: \"" ++ specifier.getHref ++ "\".")) ∧
      strMentions
        (kTopLevelAwaitError ++ " Specifier: \"" ++ specifier.getHref ++ "\".")
        "top-level await" ∧
      strMentions
        (kTopLevelAwaitError ++ " Specifier: \"" ++ specifier.getHref ++ "\".")
        specifier.getHref) := by
  unfold requireEvaluate
  rw [if_neg hne, if_neg (fun h => hnv h.2),
    if_neg (fun h => h.elim hnd hnv), if_neg (by simp [hok])]
  cases hst : run.stateAfterOneDrain
  · exact ⟨rfl, rfl, by simp, by simp,
      fun _ => ⟨rfl,
        strMentions_append_right _ (strMentions_append_right _
          (strMentions_append_right _ kTLA_mentions_tla)),
        ⟨kTopLevelAwaitError ++ " Specifier: \"", "\".", rfl⟩⟩⟩
  · exact ⟨rfl, rfl, fun _ => rfl, by simp, by simp⟩
  · exact ⟨rfl, rfl, by simp, fun _ => rfl, by simp⟩

/-- Witness for `c2_require_fresh_evaluation`: a fresh instantiated
module whose promise fulfills after one drain returns its namespace
object with exactly one microtask drain. -/
theorem c2_require_fresh_evaluation_witness :
    (requireEvaluate mainModule
        { status := .kInstantiated, exception := 0, namespaceObj := 42 }
        urlMainJs
        { succeeds := true, stateAfterOneDrain := .kFulfilled,
          resultValue := 0 }).microtaskDrains = 1 ∧
    (requireEvaluate mainModule
        { status := .kInstantiated, exception := 0, namespaceObj := 42 }
        urlMainJs
        { succeeds := true, stateAfterOneDrain := .kFulfilled,
          resultValue := 0 }).result = .ok 42 := by
  have h := c2_require_fresh_evaluation mainModule
    { status := .kInstantiated, exception := 0, namespaceObj := 42 }
    urlMainJs
    { succeeds := true, stateAfterOneDrain := .kFulfilled, resultValue := 0 }
    (by decide) (by decide) (by decide) rfl
  exact ⟨h.2.1, h.2.2.1 rfl⟩

/-! ### Claim C3 -/

/-- C3: for every module reached by synchronous require — if its engine
status is errored, the previously stored exception is rethrown; if its
status is evaluating and the module is ESM, require fails with an `Error`
containing "Circular dependency when resolving module"; if its status is
evaluating and the module is synthetic (not ESM), or its status is
evaluated, require returns the module namespace object as-is without
re-evaluating (no `evaluate` call, no microtask drain). -/
theorem c3_require_status_shortcuts (mod : Module) (eng : EngineModule)
    (specifier : Url) (run : EvalRun) :
    (eng.status = ModuleStatus.kErrored →
      requireEvaluate mod eng specifier run =
        { result := .error (.jsValue eng.exception), microtaskDrains := 0,
          evaluateCalled := false }) ∧
    (eng.status = ModuleStatus.kEvaluating → mod.esm = true →
      requireEvaluate mod eng specifier run =
        { result := .error (.errorMsg
            ("Circular dependency when resolving module: " ++ specifier.getHref)),
          microtaskDrains := 0, evaluateCalled := false } ∧
      strMentions
        ("Circular dependency when resolving module: " ++ specifier.getHref)
        "Circular dependency when resolving module") ∧
    (eng.status = ModuleStatus.kEvaluating → mod.esm = false →
      requireEvaluate mod eng specifier run =
        { result := .ok eng.namespaceObj, microtaskDrains := 0,
          evaluateCalled := false }) ∧
    (eng.status = ModuleStatus.kEvaluated →
      requireEvaluate mod eng specifier run =
        { result := .ok eng.namespaceObj, microtaskDrains := 0,
          evaluateCalled := false }) := by
  refine ⟨fun h => ?_, fun h hesm => ⟨?_, ?_⟩, fun h hesm => ?_, fun h => ?_⟩
  · unfold requireEvaluate
    rw [if_pos h]
  · unfold requireEvaluate
    rw [if_neg (by simp [h]), if_pos ⟨hesm, h⟩]
  · exact ⟨"", ": " ++ specifier.getHref, by
      rw [String.empty_append, ← String.append_assoc]
      exact congrArg (fun x => x ++ specifier.getHref) (by decide)⟩
  · unfold requireEvaluate
    rw [if_neg (by simp [h]), if_neg (by simp [hesm]), if_pos (Or.inr h)]
  · unfold requireEvaluate
    rw [if_neg (by simp [h]), if_neg (by simp [h]), if_pos (Or.inl h)]

/-- Witness for `c3_require_status_shortcuts`: an errored module rethrows
its stored exception, and an evaluating synthetic module returns its
namespace as-is. -/
theorem c3_require_status_shortcuts_witness :
    requireEvaluate mainModule
        { status := .kErrored, exception := 7, namespaceObj := 0 } urlMainJs
        { succeeds := true, stateAfterOneDrain := .kPending, resultValue := 0 }
      = { result := .error (.jsValue 7), microtaskDrains := 0,
          evaluateCalled := false } ∧
    requireEvaluate (Module.newSynthetic urlMainJs .BUNDLE false [])
        { status := .kEvaluating, exception := 0, namespaceObj := 9 } urlMainJs
        { succeeds := true, stateAfterOneDrain := .kPending, resultValue := 0 }
      = { result := .ok 9, microtaskDrains := 0, evaluateCalled := false } :=
  ⟨(c3_require_status_shortcuts mainModule
      { status := .kErrored, exception := 7, namespaceObj := 0 } urlMainJs
      { succeeds := true, stateAfterOneDrain := .kPending,
        resultValue := 0 }).1 rfl,
   (c3_require_status_shortcuts (Module.newSynthetic urlMainJs .BUNDLE false [])
      { status := .kEvaluating, exception := 0, namespaceObj := 9 } urlMainJs
      { succeeds := true, stateAfterOneDrain := .kPending,
        resultValue := 0 }).2.2.1 rfl rfl⟩

/-! ### Claim C9 -/

theorem find?_congr_entries {l : List Entry} {p q : Entry → Bool}
    (h : ∀ e ∈ l, p e = q e) : l.find? p = l.find? q := by
  induction l with
  | nil => rfl
  | cons e rest ih =>
    have he := h e (by simp)
    rcases hp : p e with _ | _
    · rw [List.find?_cons, List.find?_cons, hp, ← he, hp]
      exact ih (fun x hx => h x (by simp [hx]))
    · rw [List.find?_cons, List.find?_cons, hp, ← he, hp]

/-- C9: within an `IsolateModuleRegistry`, if a resolve of
`(context.type, context.specifier)` succeeds with engine handle `h`, a
second resolve of the same pair returns the same handle; moreover, when
no cached entry shares the specifier URL, the first resolution inserts
exactly one `Entry` keyed by the pre-normalization specifier (query and
fragment preserved) and carrying the module that the inner registry
produced for the query-and-fragment-stripped specifier, and `h` is that
entry's (freshly allocated) engine handle. -/
theorem c9_resolve_caching (inner : ResolveContext → Option Module)
    (descOk : Module → Bool) (s : ImrState) (ctx : ResolveContext)
    (h : Nat) (s1 : ImrState) (hwf : ImrWF s)
    (hres : imrResolve inner descOk s ctx = (.ok h, s1)) :
    (imrResolve inner descOk s1 ctx).1 = .ok h ∧
    ((∀ e ∈ s.entries, e.specifier ≠ ctx.specifier) →
      ∃ m, inner
          { type := ctx.type, source := ctx.source,
            specifier := ctx.specifier.stripSearchAndFragment,
            referrer := ctx.referrer, rawSpecifier := none,
            attributes := [] } = some m ∧
        s1.entries = s.entries ++
          [{ key := h, ctxType := ctx.type, specifier := ctx.specifier,
             module := m }] ∧
        h = s.nextHandle) := by
  rcases hfind : findByCtx s.entries ctx.type ctx.specifier with _ | e
  · -- lookup-cache miss
    unfold imrResolve at hres
    simp only [hfind] at hres
    rcases hinner : inner
        { type := ctx.type, source := ctx.source,
          specifier := ctx.specifier.stripSearchAndFragment,
          referrer := ctx.referrer, rawSpecifier := none,
          attributes := [] } with _ | m
    · simp only [hinner] at hres
      exact Except.noConfusion (congrArg Prod.fst hres)
    · rcases hdesc : descOk m with _ | _
      · simp only [hinner, hdesc] at hres
        rw [if_neg Bool.false_ne_true] at hres
        exact Except.noConfusion (congrArg Prod.fst hres)
      · simp only [hinner, hdesc, if_true] at hres
        rcases hconf : upsertConflict s.entries
            { key := s.nextHandle, ctxType := ctx.type,
              specifier := ctx.specifier, module := m } with _ | existing
        · -- no index collision: a fresh entry is appended
          simp only [hconf] at hres
          have hh : s.nextHandle = h :=
            Except.ok.inj (congrArg Prod.fst hres)
          have hs1 : s1 = { entries := s.entries ++ [{ key := s.nextHandle, ctxType := ctx.type, specifier := ctx.specifier, module := m }], nextHandle := s.nextHandle + 1 } :=
            (congrArg Prod.snd hres).symm
          constructor
          · have hfind1 : findByCtx s1.entries ctx.type ctx.specifier =
                some { key := s.nextHandle, ctxType := ctx.type,
                       specifier := ctx.specifier, module := m } := by
              rw [hs1]
              unfold findByCtx at hfind ⊢
              rw [List.find?_append, hfind]
              simp [Option.or, List.find?]
            simp only [imrResolve, hfind1]
            rw [hh]
          · intro _
            exact ⟨m, rfl, by rw [hs1, hh], hh.symm⟩
        · -- index collision: the existing row is kept and returned
          simp only [hconf] at hres
          have hh : existing.key = h :=
            Except.ok.inj (congrArg Prod.fst hres)
          have hs1 : s1 = { entries := s.entries, nextHandle := s.nextHandle + 1 } :=
            (congrArg Prod.snd hres).symm
          have hconfF : List.find? (fun x =>
              decide (x.key = s.nextHandle ∨ x.specifier = ctx.specifier))
              s.entries = some existing := by
            have hc := hconf
            unfold upsertConflict at hc
            exact hc
          have hexmem : existing ∈ s.entries :=
            List.mem_of_find?_eq_some hconfF
          have hexspec : existing.specifier = ctx.specifier := by
            have hp0 := List.find?_some hconfF
            have hp : decide (existing.key = s.nextHandle ∨
                existing.specifier = ctx.specifier) = true := hp0
            rcases of_decide_eq_true hp with hk | hs
            · exact absurd hk (Nat.ne_of_lt (hwf.1 existing hexmem))
            · exact hs
          constructor
          · have hfind1 : findByCtx s1.entries ctx.type ctx.specifier = none := by
              rw [hs1]
              exact hfind
            have hconf1 : upsertConflict s1.entries
                { key := s1.nextHandle, ctxType := ctx.type,
                  specifier := ctx.specifier, module := m } = some existing := by
              rw [hs1]
              show List.find? (fun x =>
                decide (x.key = s.nextHandle + 1 ∨ x.specifier = ctx.specifier))
                s.entries = some existing
              rw [find?_congr_entries (q := fun x =>
                decide (x.key = s.nextHandle ∨ x.specifier = ctx.specifier))]
              · exact hconfF
              · intro x hx
                have hlt : x.key < s.nextHandle := hwf.1 x hx
                apply decide_eq_decide.mpr
                constructor
                · rintro (hk | hs)
                  · omega
                  · exact Or.inr hs
                · rintro (hk | hs)
                  · omega
                  · exact Or.inr hs
            simp only [imrResolve, hfind1, hinner, hdesc, if_true, hconf1]
            rw [hh]
          · intro hfresh
            exact absurd hexspec (hfresh existing hexmem)
  · -- lookup-cache hit
    unfold imrResolve at hres
    simp only [hfind] at hres
    have hh : e.key = h := Except.ok.inj (congrArg Prod.fst hres)
    have hs1 : s = s1 := congrArg Prod.snd hres
    constructor
    · rw [← hs1]
      simp only [imrResolve, hfind]
      rw [hh]
    · intro hfresh
      have hfindF : List.find? (fun x =>
          decide (x.ctxType = ctx.type ∧ x.specifier = ctx.specifier))
          s.entries = some e := hfind
      have hp0 := List.find?_some hfindF
      have hp : decide (e.ctxType = ctx.type ∧ e.specifier = ctx.specifier) = true := hp0
      exact absurd (of_decide_eq_true hp).2
        (hfresh e (List.mem_of_find?_eq_some hfindF))

/-- Witness for `c9_resolve_caching`: a first resolve of
`file:///main.js?x=1` under a `BUNDLE` context (the inner registry serves
the query-stripped `file:///main.js`) allocates handle 0 and caches it
under the query-preserving URL; the second resolve returns handle 0
again. -/
theorem c9_resolve_caching_witness :
    (imrResolve innerServesMain (fun _ => true)
        { entries := [{ key := 0, ctxType := .BUNDLE,
                        specifier := urlMainQueryJs, module := mainModule }],
          nextHandle := 1 } ctxMainQueryJs).1 = .ok 0 ∧
    ∃ m, innerServesMain
        { type := ctxMainQueryJs.type, source := ctxMainQueryJs.source,
          specifier := ctxMainQueryJs.specifier.stripSearchAndFragment,
          referrer := ctxMainQueryJs.referrer, rawSpecifier := none,
          attributes := [] } = some m ∧
      ([] : List Entry) ++
          [{ key := 0, ctxType := ctxMainQueryJs.type,
             specifier := ctxMainQueryJs.specifier, module := m }] =
        [{ key := 0, ctxType := .BUNDLE, specifier := urlMainQueryJs,
           module := mainModule }] := by
  have h := c9_resolve_caching innerServesMain (fun _ => true)
    { entries := [], nextHandle := 0 } ctxMainQueryJs 0
    { entries := [{ key := 0, ctxType := .BUNDLE,
                    specifier := urlMainQueryJs, module := mainModule }],
      nextHandle := 1 }
    ⟨fun e he => absurd he (List.not_mem_nil e), List.Pairwise.nil⟩ rfl
  obtain ⟨m, hm, hentries, -⟩ := h.2 (fun e he => absurd he (List.not_mem_nil e))
  exact ⟨h.1, m, hm, hentries.symm⟩

/-! ### Claim C4 -/

theorem tryFindList_all_none (restart : ResolveContext → RResult)
    (tryParse : String → Option Url) (ctx : ResolveContext)
    (bs : List Bundle) (h : ∀ b ∈ bs, b.resolveFn ctx = none) :
    tryFindList restart tryParse ctx bs = none := by
  induction bs with
  | nil => rfl
  | cons b rest ih =>
    have hb : b.resolveFn ctx = none := h b (by simp)
    simp only [tryFindList, hb]
    exact ih (fun x hx => h x (by simp [hx]))

theorem tryFindList_prefix_none (restart : ResolveContext → RResult)
    (tryParse : String → Option Url) (ctx : ResolveContext)
    (pre bs : List Bundle) (h : ∀ b ∈ pre, b.resolveFn ctx = none) :
    tryFindList restart tryParse ctx (pre ++ bs) =
      tryFindList restart tryParse ctx bs := by
  induction pre with
  | nil => rfl
  | cons b rest ih =>
    have hb : b.resolveFn ctx = none := h b (by simp)
    rw [List.cons_append]
    simp only [tryFindList, hb]
    exact ih (fun x hx => h x (by simp [hx]))

theorem tryFindList_direct (restart : ResolveContext → RResult)
    (tryParse : String → Option Url) (ctx : ResolveContext) (b : Bundle)
    (post : List Bundle) (m : Module)
    (hb : b.resolveFn ctx = some { module := some m, specifier := none }) :
    tryFindList restart tryParse ctx (b :: post) = some (.found m) := by
  simp only [tryFindList, hb]

theorem tryFindList_found_cases (restart : ResolveContext → RResult)
    (tryParse : String → Option Url) (ctx : ResolveContext)
    (bs : List Bundle) (m : Module)
    (h : tryFindList restart tryParse ctx bs = some (.found m)) :
    ∃ b ∈ bs, ∃ r, b.resolveFn ctx = some r ∧
      ((r.module = some m ∧ r.specifier = none) ∨
        ∃ str u, r.specifier = some str ∧ tryParse str = some u ∧
          restart { type := ctx.type, source := ctx.source, specifier := u,
                    referrer := ctx.referrer,
                    rawSpecifier := ctx.rawSpecifier,
                    attributes := ctx.attributes } = .found m) := by
  induction bs with
  | nil => exact absurd h (by simp [tryFindList])
  | cons b rest ih =>
    rcases hb : b.resolveFn ctx with _ | r
    · simp only [tryFindList, hb] at h
      obtain ⟨b2, hmem, hrest⟩ := ih h
      exact ⟨b2, by simp [hmem], hrest⟩
    · obtain ⟨rmod, rspec⟩ := r
      rcases rspec with _ | str
      · rcases rmod with _ | m2
        · simp [tryFindList, hb] at h
        · simp [tryFindList, hb] at h
          subst h
          exact ⟨b, by simp, { module := some m2, specifier := none }, hb,
            Or.inl ⟨rfl, rfl⟩⟩
      · rcases hp : tryParse str with _ | u
        · simp [tryFindList, hb, hp] at h
        · rcases hr : restart
              { type := ctx.type, source := ctx.source, specifier := u,
                referrer := ctx.referrer, rawSpecifier := ctx.rawSpecifier,
                attributes := ctx.attributes } with m2 | _ | _ | _
          · simp [tryFindList, hb, hp, hr] at h
            subst h
            exact ⟨b, by simp, { module := rmod, specifier := some str }, hb,
              Or.inr ⟨str, u, rfl, hp, hr⟩⟩
          · simp [tryFindList, hb, hp, hr] at h
          · simp [tryFindList, hb, hp, hr] at h
          · simp [tryFindList, hb, hp, hr] at h

theorem append_split_mem {α : Type} :
    ∀ (l1 pre : List α) {l2 post : List α} {b : α},
      l1 ++ l2 = pre ++ b :: post →
      (∃ post1, l1 = pre ++ b :: post1 ∧ post = post1 ++ l2) ∨
      (∃ pre2, pre = l1 ++ pre2 ∧ l2 = pre2 ++ b :: post) := by
  intro l1
  induction l1 with
  | nil =>
    intro pre l2 post b h
    exact Or.inr ⟨pre, by simp, by simpa using h⟩
  | cons x rest ih =>
    intro pre l2 post b h
    cases pre with
    | nil =>
      simp only [List.cons_append, List.nil_append] at h
      injection h with hx hrest
      exact Or.inl ⟨rest, by simp [hx], hrest.symm⟩
    | cons y pre2 =>
      simp only [List.cons_append] at h
      injection h with hx h2
      rcases ih pre2 h2 with ⟨post1, hA, hB⟩ | ⟨pre3, hA, hB⟩
      · exact Or.inl ⟨post1, by simp [hx, hA], hB⟩
      · exact Or.inr ⟨pre3, by simp [hx, hA], hB⟩

theorem registryResolve_builtinOnly_from_tier (tryParse : String → Option Url) :
    ∀ (fuel : Nat) (reg : Registry) (ctx : ResolveContext) (m : Module),
      ctx.type = ResolveType.BUILTIN_ONLY →
      registryResolve tryParse fuel reg ctx = .found m →
      ∃ b, InChainBuiltinOnly reg b ∧ ∃ ctx2 r,
        ctx2.type = ResolveType.BUILTIN_ONLY ∧ b.resolveFn ctx2 = some r ∧
        r.module = some m := by
  intro fuel
  induction fuel with
  | zero =>
    intro reg ctx m htype h
    exact absurd h (by simp [registryResolve])
  | succ fuel ih =>
    intro reg ctx m htype h
    simp only [registryResolve, htype] at h
    rcases htf : tryFindList (fun c => registryResolve tryParse fuel reg c)
        tryParse ctx reg.builtinOnlyList with _ | r
    · simp only [htf] at h
      rcases hpar : reg.parent with _ | p
      · simp only [hpar] at h
        exact absurd h (by simp)
      · simp only [hpar] at h
        obtain ⟨b, hchain, rest⟩ := ih p ctx m htype h
        exact ⟨b, InChainBuiltinOnly.up hpar hchain, rest⟩
    · simp only [htf] at h
      subst h
      obtain ⟨b, hmem, r2, hfn, hcase⟩ :=
        tryFindList_found_cases _ _ _ _ _ htf
      rcases hcase with ⟨hmod, _⟩ | ⟨str, u, hspec, hparse, hrestart⟩
      · exact ⟨b, InChainBuiltinOnly.here hmem, ctx, r2, htype, hfn, hmod⟩
      · exact ih reg
          { type := ctx.type, source := ctx.source, specifier := u,
            referrer := ctx.referrer, rawSpecifier := ctx.rawSpecifier,
            attributes := ctx.attributes } m htype hrestart

theorem registryResolve_first_direct (tryParse : String → Option Url)
    (fuel : Nat) (reg : Registry) (ctx : ResolveContext) (pre : List Bundle)
    (b : Bundle) (post : List Bundle) (m : Module)
    (hso : searchOrder ctx.type reg = pre ++ b :: post)
    (hpre : ∀ b2 ∈ pre, b2.resolveFn ctx = none)
    (hb : b.resolveFn ctx = some { module := some m, specifier := none }) :
    registryResolve tryParse (fuel + 1) reg ctx = .found m := by
  obtain ⟨ctype, csource, cspec, cref, craw, cattrs⟩ := ctx
  rcases ctype with _ | _ | _
  · -- BUNDLE: tiers are bundleList, builtinList, fallbackList
    simp only [searchOrder] at hso
    simp only [registryResolve]
    rcases append_split_mem (reg.bundleList ++ reg.builtinList) pre hso with
      ⟨post1, h12, _⟩ | ⟨pre2, hpreEq, h3⟩
    · rcases append_split_mem reg.bundleList pre h12 with
        ⟨post2, hl1, _⟩ | ⟨pre3, hpreEq, hl2⟩
      · rw [hl1, tryFindList_prefix_none _ _ _ _ _ hpre,
          tryFindList_direct _ _ _ _ _ _ hb]
      · have hall1 : ∀ x ∈ reg.bundleList, x.resolveFn
            { type := .BUNDLE, source := csource, specifier := cspec,
              referrer := cref, rawSpecifier := craw,
              attributes := cattrs } = none :=
          fun x hx => hpre x (by rw [hpreEq]; exact List.mem_append_left _ hx)
        have hpre3 : ∀ x ∈ pre3, x.resolveFn
            { type := .BUNDLE, source := csource, specifier := cspec,
              referrer := cref, rawSpecifier := craw,
              attributes := cattrs } = none :=
          fun x hx => hpre x (by rw [hpreEq]; exact List.mem_append_right _ hx)
        rw [tryFindList_all_none _ _ _ _ hall1, hl2,
          tryFindList_prefix_none _ _ _ _ _ hpre3,
          tryFindList_direct _ _ _ _ _ _ hb]
    · have hall1 : ∀ x ∈ reg.bundleList, x.resolveFn
          { type := .BUNDLE, source := csource, specifier := cspec,
            referrer := cref, rawSpecifier := craw,
            attributes := cattrs } = none :=
        fun x hx => hpre x (by
          rw [hpreEq]
          exact List.mem_append_left _ (List.mem_append_left _ hx))
      have hall2 : ∀ x ∈ reg.builtinList, x.resolveFn
          { type := .BUNDLE, source := csource, specifier := cspec,
            referrer := cref, rawSpecifier := craw,
            attributes := cattrs } = none :=
        fun x hx => hpre x (by
          rw [hpreEq]
          exact List.mem_append_left _ (List.mem_append_right _ hx))
      have hpre2 : ∀ x ∈ pre2, x.resolveFn
          { type := .BUNDLE, source := csource, specifier := cspec,
            referrer := cref, rawSpecifier := craw,
            attributes := cattrs } = none :=
        fun x hx => hpre x (by rw [hpreEq]; exact List.mem_append_right _ hx)
      rw [tryFindList_all_none _ _ _ _ hall1,
        tryFindList_all_none _ _ _ _ hall2, h3,
        tryFindList_prefix_none _ _ _ _ _ hpre2,
        tryFindList_direct _ _ _ _ _ _ hb]
  · -- BUILTIN: tiers are builtinList, builtinOnlyList
    simp only [searchOrder] at hso
    simp only [registryResolve]
    rcases append_split_mem reg.builtinList pre hso with
      ⟨post1, hl1, _⟩ | ⟨pre2, hpreEq, hl2⟩
    · rw [hl1, tryFindList_prefix_none _ _ _ _ _ hpre,
        tryFindList_direct _ _ _ _ _ _ hb]
    · have hall1 : ∀ x ∈ reg.builtinList, x.resolveFn
          { type := .BUILTIN, source := csource, specifier := cspec,
            referrer := cref, rawSpecifier := craw,
            attributes := cattrs } = none :=
        fun x hx => hpre x (by rw [hpreEq]; exact List.mem_append_left _ hx)
      have hpre2 : ∀ x ∈ pre2, x.resolveFn
          { type := .BUILTIN, source := csource, specifier := cspec,
            referrer := cref, rawSpecifier := craw,
            attributes := cattrs } = none :=
        fun x hx => hpre x (by rw [hpreEq]; exact List.mem_append_right _ hx)
      rw [tryFindList_all_none _ _ _ _ hall1, hl2,
        tryFindList_prefix_none _ _ _ _ _ hpre2,
        tryFindList_direct _ _ _ _ _ _ hb]
  · -- BUILTIN_ONLY: the single builtinOnlyList tier
    simp only [searchOrder] at hso
    simp only [registryResolve]
    rw [hso, tryFindList_prefix_none _ _ _ _ _ hpre,
      tryFindList_direct _ _ _ _ _ _ hb]

theorem registryResolve_parent_on_miss (tryParse : String → Option Url)
    (fuel : Nat) (reg : Registry) (ctx : ResolveContext)
    (hall : ∀ b ∈ searchOrder ctx.type reg, b.resolveFn ctx = none) :
    registryResolve tryParse (fuel + 1) reg ctx =
      match reg.parent with
      | some p => registryResolve tryParse fuel p ctx
      | none => .notFound := by
  obtain ⟨ctype, csource, cspec, cref, craw, cattrs⟩ := ctx
  rcases ctype with _ | _ | _
  · simp only [searchOrder] at hall
    have h1 : ∀ x ∈ reg.bundleList, x.resolveFn
        { type := .BUNDLE, source := csource, specifier := cspec,
          referrer := cref, rawSpecifier := craw,
          attributes := cattrs } = none :=
      fun x hx => hall x (List.mem_append_left _ (List.mem_append_left _ hx))
    have h2 : ∀ x ∈ reg.builtinList, x.resolveFn
        { type := .BUNDLE, source := csource, specifier := cspec,
          referrer := cref, rawSpecifier := craw,
          attributes := cattrs } = none :=
      fun x hx => hall x (List.mem_append_left _ (List.mem_append_right _ hx))
    have h3 : ∀ x ∈ reg.fallbackList, x.resolveFn
        { type := .BUNDLE, source := csource, specifier := cspec,
          referrer := cref, rawSpecifier := craw,
          attributes := cattrs } = none :=
      fun x hx => hall x (List.mem_append_right _ hx)
    simp only [registryResolve]
    rw [tryFindList_all_none _ _ _ _ h1, tryFindList_all_none _ _ _ _ h2,
      tryFindList_all_none _ _ _ _ h3]
  · simp only [searchOrder] at hall
    have h1 : ∀ x ∈ reg.builtinList, x.resolveFn
        { type := .BUILTIN, source := csource, specifier := cspec,
          referrer := cref, rawSpecifier := craw,
          attributes := cattrs } = none :=
      fun x hx => hall x (List.mem_append_left _ hx)
    have h2 : ∀ x ∈ reg.builtinOnlyList, x.resolveFn
        { type := .BUILTIN, source := csource, specifier := cspec,
          referrer := cref, rawSpecifier := craw,
          attributes := cattrs } = none :=
      fun x hx => hall x (List.mem_append_right _ hx)
    simp only [registryResolve]
    rw [tryFindList_all_none _ _ _ _ h1, tryFindList_all_none _ _ _ _ h2]
  · simp only [searchOrder] at hall
    simp only [registryResolve]
    rw [tryFindList_all_none _ _ _ _ hall]

theorem chain_builtinOnly_typed {reg : Registry} {b : Bundle}
    (hc : InChainBuiltinOnly reg b) :
    RegistryTyped reg → b.type = ModuleType.BUILTIN_ONLY := by
  induction hc with
  | here hmem =>
    intro ht
    cases ht with
    | mk h1 h2 h3 h4 h5 => exact h3 _ hmem
  | up hp hc2 ih =>
    intro ht
    cases ht with
    | mk h1 h2 h3 h4 h5 => exact ih (h5 _ hp)

/-- C4: `ModuleRegistry::resolve` searches only the tiers permitted for
the context type, in insertion order within each tier, consulting the
parent only when every tier misses, and a `BUILTIN_ONLY`-typed resolve is
served only from BuiltinOnly-tier bundles:

1. if a `BUILTIN_ONLY` resolve finds `m`, then some bundle in the
   BuiltinOnly tier of the registry (or of an ancestor) produced `m`, and
   it did so for a `BUILTIN_ONLY` context — so the module is never owned
   by a Bundle/Builtin/Fallback-tier bundle;
2. if every bundle before `b` in the tier-ordered search sequence misses
   and `b` returns `m` directly, the resolve returns `m` (first hit wins,
   bundles tried in insertion order, tiers in the documented order);
3. if every bundle in the search sequence misses, the result is exactly
   the parent's resolution (or not-found with no parent);
4. under the builder's typing discipline, every bundle in the BuiltinOnly
   chain has type `BUILTIN_ONLY` (so conjunct 1's owning bundle is a
   BuiltinOnly bundle). -/
theorem c4_registry_tier_policy (tryParse : String → Option Url) :
    (∀ (fuel : Nat) (reg : Registry) (ctx : ResolveContext) (m : Module),
      ctx.type = ResolveType.BUILTIN_ONLY →
      registryResolve tryParse fuel reg ctx = .found m →
      ∃ b, InChainBuiltinOnly reg b ∧ ∃ ctx2 r,
        ctx2.type = ResolveType.BUILTIN_ONLY ∧ b.resolveFn ctx2 = some r ∧
        r.module = some m) ∧
    (∀ (fuel : Nat) (reg : Registry) (ctx : ResolveContext)
        (pre : List Bundle) (b : Bundle) (post : List Bundle) (m : Module),
      searchOrder ctx.type reg = pre ++ b :: post →
      (∀ b2 ∈ pre, b2.resolveFn ctx = none) →
      b.resolveFn ctx = some { module := some m, specifier := none } →
      registryResolve tryParse (fuel + 1) reg ctx = .found m) ∧
    (∀ (fuel : Nat) (reg : Registry) (ctx : ResolveContext),
      (∀ b ∈ searchOrder ctx.type reg, b.resolveFn ctx = none) →
      registryResolve tryParse (fuel + 1) reg ctx =
        match reg.parent with
        | some p => registryResolve tryParse fuel p ctx
        | none => .notFound) ∧
    (∀ (reg : Registry) (b : Bundle), RegistryTyped reg →
      InChainBuiltinOnly reg b → b.type = ModuleType.BUILTIN_ONLY) :=
  ⟨registryResolve_builtinOnly_from_tier tryParse,
   fun fuel reg ctx => registryResolve_first_direct tryParse fuel reg ctx,
   fun fuel reg ctx => registryResolve_parent_on_miss tryParse fuel reg ctx,
   fun _ _ ht hc => chain_builtinOnly_typed hc ht⟩

/-- Witness for `c4_registry_tier_policy` on concrete registries: a
BUILTIN_ONLY resolve served from the BuiltinOnly tier, insertion-order
first-hit in the Bundle tier, not-found on an empty parentless registry,
and the typing of the serving BuiltinOnly bundle. -/
theorem c4_registry_tier_policy_witness :
    (∃ b, InChainBuiltinOnly regInternal b ∧ ∃ ctx2 r,
        ctx2.type = ResolveType.BUILTIN_ONLY ∧ b.resolveFn ctx2 = some r ∧
        r.module = some internalModule) ∧
    registryResolve simpleParse 2 regTwoBundles ctxMainJs =
      .found mainModule ∧
    registryResolve simpleParse 1 regEmpty ctxMainJs = .notFound ∧
    internalBundle.type = ModuleType.BUILTIN_ONLY := by
  refine ⟨(c4_registry_tier_policy simpleParse).1 2 regInternal ctxInternal
    internalModule rfl (by decide), ?_, ?_, ?_⟩
  · exact (c4_registry_tier_policy simpleParse).2.1 1 regTwoBundles ctxMainJs
      [emptyBundle] directBundle [] mainModule rfl
      (by
        intro b2 hb2
        rw [List.mem_singleton] at hb2
        subst hb2
        rfl)
      rfl
  · exact (c4_registry_tier_policy simpleParse).2.2.1 0 regEmpty ctxMainJs
      (by
        intro b hb
        simp [searchOrder, regEmpty, ctxMainJs, Registry.bundleList,
          Registry.builtinList, Registry.fallbackList] at hb)
  · exact (c4_registry_tier_policy simpleParse).2.2.2 regInternal
      internalBundle
      (RegistryTyped.mk (by simp) (by simp)
        (by
          intro b hb
          rw [List.mem_singleton] at hb
          subst hb
          rfl)
        (by simp) (fun p hp => by cases hp))
      (InChainBuiltinOnly.here (List.mem_singleton.mpr rfl))

end Workerd
